import Mathlib

/-!
Shallow embedding of the presigned-upload coordination protocol of the
Disco music app: the two Lambda-style authorization endpoints
(`upload-url` and `upload-complete`) and the client-side upload
orchestrators (single upload and structured album upload).

External collaborators (the JWT library, S3, the RDS sink) are modelled
as explicit parameters: `jv` is the opaque JWT verifier, `storage` the
object store's HEAD view, and timestamps / random suffixes are passed in
explicitly since the source reads them from `Date.now()` / `Math.random()`.
-/

namespace Disco

/-- Model of JavaScript `String.prototype.includes` on char lists:
`containsSub pat l` is true iff `pat` occurs as a contiguous run in `l`. -/
def containsSub (pat : List Char) : List Char → Bool
  | [] => pat.isEmpty
  | c :: rest => pat.isPrefixOf (c :: rest) || containsSub pat rest

/-- JavaScript `s.includes(pat)`. -/
def strIncludes (s pat : String) : Bool :=
  containsSub pat.data s.data

/-- Fuel-driven worker for `jsSplit`; each step consumes at least one
character, so `fuel = length` always suffices. -/
def jsSplitGo (sep : List Char) : Nat → List Char → List Char → List (List Char)
  | _, [], acc => [acc.reverse]
  | 0, l, acc => [acc.reverse ++ l]
  | fuel + 1, c :: rest, acc =>
    if sep.isPrefixOf (c :: rest) then
      acc.reverse :: jsSplitGo sep fuel ((c :: rest).drop sep.length) []
    else jsSplitGo sep fuel rest (c :: acc)

/-- JavaScript `s.split(sep)` for a nonempty separator: split at every
occurrence, keeping empty parts. -/
def jsSplit (s sep : String) : List String :=
  (jsSplitGo sep.data s.data.length s.data []).map String.mk

/-- JavaScript `s.trim()`: strip whitespace from both ends. -/
def jsTrim (s : String) : String :=
  String.mk (((s.data.dropWhile Char.isWhitespace).reverse.dropWhile Char.isWhitespace).reverse)

/-- The decoded JWT payload: the handlers only read `user.id`.
`id = 0` models a falsy `user.id` (the `!user.id` check in the source). -/
structure User where
  id : Nat
deriving DecidableEq, Repr

/-- Result of `verifyToken`: either the decoded user, or the thrown
error message. -/
inductive VerifyResult where
  | ok (u : User)
  | err (msg : String)
deriving DecidableEq, Repr

/-- Source: `token.startsWith('Bearer ') ? token.slice(7) : token`. -/
def stripBearer (t : String) : String :=
  if "Bearer ".data.isPrefixOf t.data then String.mk (t.data.drop 7) else t

/-- Source `verifyToken` (identical in both Lambda handlers): throws on a
falsy token, strips one `'Bearer '` prefix, then delegates to the opaque
verifier `jv` (`jwt.verify` with the fixed secret); a verifier failure is
rethrown as `'Invalid or expired token'`. -/
def verifyToken (jv : String → Option User) (token : Option String) : VerifyResult :=
  match token with
  | none => .err "No authorization token provided"
  | some t =>
    if t = "" then .err "No authorization token provided"
    else
      match jv (stripBearer t) with
      | some u => .ok u
      | none => .err "Invalid or expired token"

/-- JavaScript falsiness for an optional string field (`undefined` or `''`). -/
def jsFalsyStr : Option String → Bool
  | none => true
  | some s => s = ""

/-- JavaScript falsiness for an optional numeric field (`undefined` or `0`). -/
def jsFalsyNat : Option Nat → Bool
  | none => true
  | some n => n = 0

/-- Source: `const MAX_FILE_SIZE = 100 * 1024 * 1024`. -/
def MAX_FILE_SIZE : Nat := 100 * 1024 * 1024

/-- Source: the `ALLOWED_TYPES` array of the upload-url handler. -/
def ALLOWED_TYPES : List String :=
  ["audio/mpeg", "audio/mp3", "audio/mp4", "audio/m4a", "audio/wav",
   "audio/x-wav", "audio/wave", "audio/aac", "audio/ogg", "audio/flac",
   "audio/x-flac", "audio/webm", "application/octet-stream",
   "image/jpeg", "image/jpg", "image/png", "image/webp", "image/gif",
   "application/json"]

/-- Parsed JSON body of a `POST /api/music/upload-url` request. -/
structure UploadUrlBody where
  fileName : Option String
  fileType : Option String
  fileSize : Option Nat
  s3Key : Option String
deriving DecidableEq, Repr

/-- Source `validateRequest`: checks run in source order — fileName,
fileType, size ceiling (skipped when `fileSize` is falsy), allow-list. -/
def validateRequest (body : UploadUrlBody) : Except String Unit :=
  if jsFalsyStr body.fileName then .error "fileName is required"
  else if jsFalsyStr body.fileType then .error "fileType is required"
  else if !jsFalsyNat body.fileSize ∧ body.fileSize.getD 0 > MAX_FILE_SIZE then
    .error "File size exceeds maximum allowed (100MB)"
  else if !(ALLOWED_TYPES.contains (body.fileType.getD "")) then
    .error ("Unsupported file type: " ++ body.fileType.getD "")
  else .ok ()

/-- Character class `[a-zA-Z0-9._-]` of the sanitizing regex. -/
def isSafeChar (c : Char) : Bool :=
  c.isAlpha || c.isDigit || c = '.' || c = '_' || c = '-'

/-- Source: `fileName.replace(/[^a-zA-Z0-9._-]/g, '_')`. -/
def sanitizeFileName (s : String) : String :=
  String.mk (s.data.map (fun c => if isSafeChar c then c else '_'))

/-- Source `generateS3Key`; `Date.now()` and the random suffix are the
explicit `timestamp` / `randomString` parameters. -/
def generateS3Key (userId : Nat) (fileName : String) (timestamp : Nat)
    (randomString : String) : String :=
  "music/" ++ toString userId ++ "/" ++ toString timestamp ++ "-"
    ++ randomString ++ "-" ++ sanitizeFileName fileName

/-- Source: `const PRESIGNED_URL_EXPIRY = 900`. -/
def PRESIGNED_URL_EXPIRY : Nat := 900

/-- The `PutObjectCommand` fields that the upload-url handler pins into
the presigned URL. -/
structure PutCommand where
  bucket : String
  key : String
  contentType : String
  metaUserId : String
  metaOriginalFileName : String
deriving DecidableEq, Repr

/-- HTTP outcome of the upload-url handler. -/
inductive UploadUrlResult where
  | success (command : PutCommand) (key : String) (expiresIn : Nat)
  | failure (statusCode : Nat) (error : String)
deriving DecidableEq, Repr

/-- The catch-block status mapping of the upload-url handler. -/
def uploadUrlStatus (msg : String) : Nat :=
  if strIncludes msg "token" || msg == "Unauthorized" then 401
  else if strIncludes msg "required" || strIncludes msg "exceeds"
      || strIncludes msg "Unsupported" then 400
  else 500

/-- The upload-url Lambda handler (`exports.handler` of the presigned-URL
function): verify the bearer token, validate the body, choose the key
(client-supplied `s3Key` verbatim when truthy, else `generateS3Key`),
and return the signed PUT authorization. -/
def uploadUrlHandler (jv : String → Option User) (bucket : String)
    (timestamp : Nat) (randomString : String) (authHeader : Option String)
    (body : UploadUrlBody) : UploadUrlResult :=
  match verifyToken jv authHeader with
  | .err msg => .failure (uploadUrlStatus msg) msg
  | .ok user =>
    if user.id = 0 then .failure 401 "Unauthorized"
    else
      match validateRequest body with
      | .error msg => .failure (uploadUrlStatus msg) msg
      | .ok _ =>
        let key :=
          if !jsFalsyStr body.s3Key then body.s3Key.getD ""
          else generateS3Key user.id (body.fileName.getD "") timestamp randomString
        .success ⟨bucket, key, body.fileType.getD "", toString user.id,
          body.fileName.getD ""⟩ key PRESIGNED_URL_EXPIRY

/-- What a successful `HeadObjectCommand` on the bucket reports for a key:
`ContentLength`, `ContentType` and the `originalfilename` entry of the
user metadata written at grant time. -/
structure S3Object where
  size : Nat
  contentType : String
  originalFileName : Option String
deriving DecidableEq, Repr

/-- Source: `fileName.replace(/\.[^.]+$/, '')` — drop a final `.ext`
segment when the extension is nonempty and dot-free. -/
def stripExt (s : String) : String :=
  let rev := s.data.reverse
  let ext := rev.takeWhile (fun c => c ≠ '.')
  if 0 < ext.length ∧ ext.length < rev.length then
    String.mk ((rev.drop (ext.length + 1)).reverse)
  else s

/-- Source: `key.split('/').pop()`. -/
def lastSegment (key : String) : String :=
  (jsSplit key "/").getLastD ""

/-- The descriptive fields computed by `extractMetadata`. -/
structure TrackMeta where
  title : String
  artist : String
  originalFileName : String
deriving DecidableEq, Repr

/-- Source `extractMetadata`: strip the extension, split on `' - '`;
exactly two parts give `artist - title` (trimmed), otherwise the whole
name is the title and the artist is `'Unknown Artist'`. -/
def extractMetadata (fileName : String) (s3Original : Option String) : TrackMeta :=
  let nameWithoutExt := stripExt fileName
  let parts := jsSplit nameWithoutExt " - "
  let artist := if parts.length = 2 then jsTrim (parts.getD 0 "") else "Unknown Artist"
  let title := if parts.length = 2 then jsTrim (parts.getD 1 "") else nameWithoutExt
  let orig :=
    match s3Original with
    | some o => if o = "" then fileName else o
    | none => fileName
  ⟨title, artist, orig⟩

/-- Parsed JSON body of a `POST /api/music/upload-complete` request.
The handler destructures only `key`, `fileName`, `fileSize`, `fileType`;
`bodyOwnerId` stands for any extra owner/user field a client may add to
the JSON body — present in the parsed object, never read. -/
structure ConfirmBody where
  key : Option String
  fileName : Option String
  fileSize : Option Nat
  fileType : Option String
  bodyOwnerId : Option Nat
deriving DecidableEq, Repr

/-- The `musicRecord` object assembled by the upload-complete handler. -/
structure MusicRecord where
  id : String
  userId : Nat
  title : String
  artist : String
  originalFileName : String
  s3Key : String
  s3Bucket : String
  fileSize : Nat
  contentType : String
  publicUrl : String
  uploadedAt : String
  status : String
deriving DecidableEq, Repr

/-- HTTP outcome of the upload-complete handler. -/
inductive ConfirmResult where
  | success (record : MusicRecord)
  | failure (statusCode : Nat) (error : String)
deriving DecidableEq, Repr

/-- The catch-block status mapping of the upload-complete handler. -/
def confirmStatus (msg : String) : Nat :=
  if strIncludes msg "token" || msg == "Unauthorized" then 401
  else if strIncludes msg "required" || strIncludes msg "not found" then 400
  else 500

/-- Source: `https://BUCKET.s3.REGION.amazonaws.com/KEY`, rebuilt by the
handler from its own configuration and the key. -/
def publicUrlFor (bucket region key : String) : String :=
  "https://" ++ bucket ++ ".s3." ++ region ++ ".amazonaws.com/" ++ key

/-- Modelled from the spec: the source's `saveMusicRecord` logs the record
and returns `true`, with the actual RDS `INSERT INTO music ...` left as
commented-out code; persistence into the metadata store is modelled as
appending the record to the store list, as the commented query and §4.1
of the spec describe. -/
def saveMusicRecord (store : List MusicRecord) (r : MusicRecord) : List MusicRecord :=
  store ++ [r]

/-- The upload-complete Lambda handler (`exports.handler` of the
confirmation function): verify the bearer token, require a truthy `key`,
HEAD the object (`verifyS3Object`, whose failure throws
`'File not found in S3'`), derive metadata, rebuild the public URL, and
persist the record. Returns the HTTP outcome and the resulting store. -/
def confirmHandler (jv : String → Option User) (bucket region : String)
    (storage : String → Option S3Object) (timestamp : Nat) (randomString : String)
    (now : String) (authHeader : Option String) (body : ConfirmBody)
    (store : List MusicRecord) : ConfirmResult × List MusicRecord :=
  match verifyToken jv authHeader with
  | .err msg => (.failure (confirmStatus msg) msg, store)
  | .ok user =>
    if user.id = 0 then (.failure 401 "Unauthorized", store)
    else if jsFalsyStr body.key then (.failure 400 "key is required", store)
    else
      let key := body.key.getD ""
      match storage key with
      | none => (.failure (confirmStatus "File not found in S3") "File not found in S3", store)
      | some obj =>
        let name := if !jsFalsyStr body.fileName then body.fileName.getD ""
                    else lastSegment key
        let meta := extractMetadata name obj.originalFileName
        let url := publicUrlFor bucket region key
        let record : MusicRecord :=
          ⟨"music_" ++ toString timestamp ++ "_" ++ randomString, user.id,
           meta.title, meta.artist, meta.originalFileName, key, bucket,
           obj.size, obj.contentType, url, now, "active"⟩
        (.success record, saveMusicRecord store record)

/-- Observable protocol actions of the upload client: the POST to
`/api/music/upload-url` (with its request-body fields, including the
optional explicit `s3Key`), the PUT of the bytes to the signed URL, and
the POST to `/api/music/upload-complete`. -/
inductive ClientStep where
  | grantRequest (fileName : String) (fileType : String) (fileSize : Nat) (s3Key : Option String)
  | putObject (contentType : String)
  | confirmCall (key : String) (fileName : String)
deriving DecidableEq, Repr

/-- Whether a step is a call to the upload-complete endpoint. -/
def isConfirmStep : ClientStep → Bool
  | .confirmCall _ _ => true
  | _ => false

/-- Whether a step requests a grant for the explicit key `k`. -/
def isGrantFor (k : String) : ClientStep → Bool
  | .grantRequest _ _ _ (some k') => k' == k
  | _ => false

/-- Where one `uploadFileToS3` call can fail: the grant request returns
non-2xx, the PUT to storage returns non-2xx, or both succeed. -/
inductive UpOutcome where
  | grantFail
  | putFail
  | ok
deriving DecidableEq, Repr

/-- One object of a structured album upload, with the arguments
`uploadAlbum` passes to `uploadFileToS3` for it. -/
structure UploadItem where
  fileName : String
  fileSize : Nat
  key : String
  contentType : String
deriving DecidableEq, Repr

/-- The protocol steps of one `uploadFileToS3` call of the enhanced
upload modal: request a grant carrying the explicit `s3Key`, then PUT
the bytes; a non-ok response at either point throws (no further steps).
The source performs no upload-complete call in this helper. -/
def fileSteps (o : UpOutcome) (it : UploadItem) : List ClientStep × Bool :=
  let g := ClientStep.grantRequest it.fileName it.contentType it.fileSize (some it.key)
  match o with
  | .grantFail => ([g], false)
  | .putFail => ([g, .putObject it.contentType], false)
  | .ok => ([g, .putObject it.contentType], true)

/-- Sequential execution of `uploadFileToS3` over a list of items, as
`uploadAlbum` awaits them one after another inside one `try` block: the
`i`-th call's network outcome is `env i`; the first failure throws,
aborting the rest. Returns the emitted steps and overall success. -/
def runSeq (env : Nat → UpOutcome) : Nat → List UploadItem → List ClientStep × Bool
  | _, [] => ([], true)
  | i, it :: rest =>
    let r := fileSteps (env i) it
    if r.2 then
      let t := runSeq env (i + 1) rest
      (r.1 ++ t.1, t.2)
    else (r.1, false)

/-- The class `[a-z0-9]` of the album-slug regex. -/
def isLowerDigit (c : Char) : Bool :=
  ('a' ≤ c && c ≤ 'z') || c.isDigit

mutual

/-- Model of `.replace(/[^a-z0-9]+/g, '-')`: each maximal run of
characters outside `[a-z0-9]` collapses to a single `'-'`. -/
def collapseRuns : List Char → List Char
  | [] => []
  | c :: rest =>
    if isLowerDigit c then c :: collapseRuns rest
    else '-' :: skipRun rest

/-- Inside a run of characters outside `[a-z0-9]` (the `'-'` for the run
is already emitted): drop until the run ends, then resume. -/
def skipRun : List Char → List Char
  | [] => []
  | c :: rest =>
    if isLowerDigit c then c :: collapseRuns rest
    else skipRun rest

end

/-- JavaScript `toLowerCase`, modelled characterwise. -/
def lowerStr (s : String) : String :=
  String.mk (s.data.map Char.toLower)

/-- Source: `albumName.toLowerCase().replace(/[^a-z0-9]+/g, '-')`. -/
def slugify (s : String) : String :=
  String.mk (collapseRuns (lowerStr s).data)

/-- Source: `const albumFolder = music/ALBUMID`. -/
def albumFolder (albumName : String) : String :=
  "music/" ++ slugify albumName

/-- Source: `albumCover.name?.split('.').pop()?.toLowerCase() || 'jpg'`. -/
def coverExtOf (name : String) : String :=
  let e := lowerStr ((jsSplit name ".").getLastD "")
  if e = "" then "jpg" else e

/-- JavaScript `String(n).padStart(2, '0')`. -/
def pad2 (s : String) : String :=
  if s.length < 2 then String.mk (List.replicate (2 - s.length) '0') ++ s else s

/-- Source: the track key `ALBUMFOLDER/NN. NAME` with the 1-based,
2-padded track number `NN` taken from the input position. -/
def trackKey (folder : String) (i : Nat) (name : String) : String :=
  folder ++ "/" ++ pad2 (toString (i + 1)) ++ ". " ++ name

/-- The cover file state of the enhanced modal: `setAlbumCover` stores
only `uri` and `name`, so `albumCover.mimeType` and `albumCover.size`
are always undefined at upload time. -/
structure CoverFile where
  name : String
deriving DecidableEq, Repr

/-- A selected album track: its picker name, size, and MIME type (the
selection code fills `mimeType`, but `uploadAlbum` still reads it with
the `|| 'audio/mpeg'` fallback). -/
structure SongFile where
  name : String
  size : Nat
  mime : Option String
deriving DecidableEq, Repr

/-- Source (`uploadFileToS3`): `file.name || key.split('/').pop() || 'file'`. -/
def clientFileName (name : Option String) (key : String) : String :=
  let fallback := if lastSegment key = "" then "file" else lastSegment key
  match name with
  | some n => if n = "" then fallback else n
  | none => fallback

/-- The ordered `uploadFileToS3` calls `uploadAlbum` makes: the cover at
`FOLDER/cover.EXT` (content type `albumCover.mimeType || 'image/jpeg'`,
size `albumCover.size || 0`, both fallbacks since the cover state has
neither field), each track at `FOLDER/NN. NAME` in input order, and last
the manifest at `FOLDER/metadata.json` via `uploadJSONToS3` (a nameless
blob of `manifestSize` bytes with content type `application/json`). -/
def albumItems (albumName : String) (cover : CoverFile) (songs : List SongFile)
    (manifestSize : Nat) : List UploadItem :=
  let folder := albumFolder albumName
  let coverKey := folder ++ "/cover." ++ coverExtOf cover.name
  let coverItem : UploadItem :=
    ⟨clientFileName (some cover.name) coverKey, 0, coverKey, "image/jpeg"⟩
  let trackItems := (List.range songs.length).map (fun i =>
    let s := songs.getD i ⟨"", 0, none⟩
    let k := trackKey folder i s.name
    (⟨clientFileName (some s.name) k, s.size, k, s.mime.getD "audio/mpeg"⟩ : UploadItem))
  let manifestKey := folder ++ "/metadata.json"
  let manifestItem : UploadItem :=
    ⟨clientFileName none manifestKey, manifestSize, manifestKey, "application/json"⟩
  coverItem :: trackItems ++ [manifestItem]

/-- The structured album upload: run the three groups of
`uploadFileToS3` calls strictly sequentially. -/
def uploadAlbum (env : Nat → UpOutcome) (albumName : String) (cover : CoverFile)
    (songs : List SongFile) (manifestSize : Nat) : List ClientStep × Bool :=
  runSeq env 0 (albumItems albumName cover songs manifestSize)

/-- Network responses seen by one `uploadToS3` call of the plain upload
modal: whether the grant request succeeds (and the key it returns),
whether the PUT succeeds, and whether the upload-complete call succeeds. -/
structure SingleEnv where
  grantOk : Bool
  grantKey : String
  putOk : Bool
  confirmOk : Bool
deriving DecidableEq, Repr

/-- Source `uploadToS3` of `music-upload-modal.tsx`: request a grant
(no explicit key), PUT the bytes with the file's content type, then POST
upload-complete with the key returned by the grant; any non-ok response
throws, aborting the later steps. -/
def uploadToS3Steps (e : SingleEnv) (fileName fileType : String) (fileSize : Nat) :
    List ClientStep × Bool :=
  let g := ClientStep.grantRequest fileName fileType fileSize none
  if !e.grantOk then ([g], false)
  else
    let p := ClientStep.putObject fileType
    if !e.putOk then ([g, p], false)
    else
      let c := ClientStep.confirmCall e.grantKey fileName
      if !e.confirmOk then ([g, p, c], false) else ([g, p, c], true)

/-- The manifest key of a structured album upload. -/
def albumManifestKey (albumName : String) : String :=
  albumFolder albumName ++ "/metadata.json"

/-- The steps of a fully successful sequential run: grant then PUT for
each item, in order. -/
def fullSteps : List UploadItem → List ClientStep
  | [] => []
  | it :: rest =>
    .grantRequest it.fileName it.contentType it.fileSize (some it.key)
      :: .putObject it.contentType :: fullSteps rest

/-- A sample verifier: the token `"tok"` belongs to user 42. -/
def jvW : String → Option User := fun s => if s = "tok" then some ⟨42⟩ else none

/-- A sample verifier: the token `"x"` belongs to user 1. -/
def jv1 : String → Option User := fun s => if s = "x" then some ⟨1⟩ else none

/-- A storage view with no objects at all. -/
def storageNone : String → Option S3Object := fun _ => none

/-- A storage view holding one object under `music/42/a.mp3`. -/
def storageOne : String → Option S3Object :=
  fun k => if k = "music/42/a.mp3" then some ⟨123, "audio/mpeg", none⟩ else none

/-- A sample confirm body for the object at `music/42/a.mp3`, carrying
client claims (`fileSize`, `fileType`) and an extra owner field. -/
def cb1 : ConfirmBody :=
  ⟨some "music/42/a.mp3", some "Jane - Song.mp3", some 9, some "audio/wav", some 99⟩

/-- Like `cb1` but with different client claims and a different extra
owner field; only `key` and `fileName` agree. -/
def cb2 : ConfirmBody :=
  ⟨some "music/42/a.mp3", some "Jane - Song.mp3", some 7, some "audio/mpeg", some 1⟩

/-- Like `cb1` in every destructured field; only the extra owner field
conflicts (1 instead of 99). -/
def cb3 : ConfirmBody :=
  ⟨some "music/42/a.mp3", some "Jane - Song.mp3", some 9, some "audio/wav", some 1⟩

/-- The record the upload-complete handler assembles for `cb1` against
`storageOne` (timestamp 5, random suffix `"r"`, time string `"now"`). -/
def recW : MusicRecord :=
  ⟨"music_5_r", 42, "Song", "Jane", "Jane - Song.mp3", "music/42/a.mp3",
   "disco-music-bucket", 123, "audio/mpeg",
   "https://disco-music-bucket.s3.us-east-1.amazonaws.com/music/42/a.mp3",
   "now", "active"⟩

/-! ## General helper lemmas -/

/-- Appending strings appends their character data. -/
theorem str_data_append (a b : String) : (a ++ b).data = a.data ++ b.data := by
  cases a; cases b; rfl

/-- Strings with equal character data are equal. -/
theorem str_eq_of_data (a b : String) (h : a.data = b.data) : a = b := by
  cases a; cases b; exact congrArg String.mk h

/-- A list is a Boolean prefix of itself followed by anything. -/
theorem isPrefixOf_append_self (l m : List Char) : l.isPrefixOf (l ++ m) = true := by
  induction l with
  | nil => simp [List.isPrefixOf]
  | cons c t ih => simp [List.isPrefixOf, ih]

/-- A Boolean prefix occurs as a substring. -/
theorem containsSub_of_isPrefixOf (pat l : List Char) (h : pat.isPrefixOf l = true) :
    containsSub pat l = true := by
  cases l with
  | nil =>
    cases pat with
    | nil => rfl
    | cons c t => simp [List.isPrefixOf] at h
  | cons c t => simp [containsSub, h]

/-- A string all of whose characters satisfy `isSafeChar` is unchanged by
the sanitizing regex. -/
theorem sanitizeFileName_id (s : String) (h : s.data.all isSafeChar = true) :
    sanitizeFileName s = s := by
  apply str_eq_of_data
  show (s.data.map _) = s.data
  have : ∀ l : List Char, l.all isSafeChar = true →
      l.map (fun c => if isSafeChar c then c else '_') = l := by
    intro l hl
    induction l with
    | nil => rfl
    | cons c t ih =>
      simp only [List.all_cons, Bool.and_eq_true] at hl
      simp [hl.1, ih hl.2]
  exact this s.data h

/-- A falsy optional string is `none` or `some ""`. -/
theorem jsFalsyStr_false_iff (o : Option String) :
    jsFalsyStr o = false ↔ ∃ s, o = some s ∧ s ≠ "" := by
  cases o with
  | none => simp [jsFalsyStr]
  | some s => simp [jsFalsyStr]

/-! ## C10 — Bearer-prefix handling in verifyToken -/

/-- C10 counterexample: verifying `'Bearer ' + t` is not always the same
as verifying the raw token `t`. At `t = ""` the raw form fails with the
missing-token error while the prefixed form reaches the verifier and
fails with the invalid-token error; at a token that itself starts with
`'Bearer '` the handler strips only one prefix, so the two forms hand
different strings to the verifier and can even differ in success. -/
theorem verifyToken_bearer_divergence :
    verifyToken jv1 (some ("Bearer " ++ "")) ≠ verifyToken jv1 (some "") ∧
    verifyToken jv1 (some ("Bearer " ++ "Bearer x")) ≠ verifyToken jv1 (some "Bearer x") := by
  decide

/-- C10 (amended): for every token `t` that is nonempty and does not
itself start with `'Bearer '`, both endpoints' `verifyToken` yields
exactly the same result for the header `'Bearer ' + t` as for the raw
token `t`, whatever the underlying JWT verifier does. -/
theorem verifyToken_bearer_equiv (jv : String → Option User) (t : String)
    (hne : t ≠ "") (hnb : "Bearer ".data.isPrefixOf t.data = false) :
    verifyToken jv (some ("Bearer " ++ t)) = verifyToken jv (some t) := by
  have hBne : ("Bearer " ++ t) ≠ "" := by
    intro h
    have hd := congrArg String.data h
    rw [str_data_append] at hd
    simp at hd
  have hpre : "Bearer ".data.isPrefixOf ("Bearer " ++ t).data = true := by
    rw [str_data_append]; exact isPrefixOf_append_self _ _
  have hstrip : stripBearer ("Bearer " ++ t) = t := by
    unfold stripBearer
    simp only [hpre, if_true]
    rw [str_data_append]
    show String.mk (("Bearer ".data ++ t.data).drop ("Bearer ".data.length)) = t
    rw [List.drop_left]
  have hstrip2 : stripBearer t = t := by
    unfold stripBearer
    simp [hnb]
  unfold verifyToken
  dsimp only
  rw [if_neg hBne, if_neg hne, hstrip, hstrip2]

/-- C10 witness: the amended equivalence applied to the concrete token
`"abc"`. -/
theorem verifyToken_bearer_equiv_witness :
    ("abc" : String) ≠ "" ∧ "Bearer ".data.isPrefixOf ("abc" : String).data = false ∧
    verifyToken jv1 (some ("Bearer " ++ "abc")) = verifyToken jv1 (some "abc") :=
  ⟨by decide, by decide, verifyToken_bearer_equiv jv1 "abc" (by decide) (by decide)⟩

/-! ## C7 — shape of the generated key -/

/-- C7: with a verified credential and no truthy `s3Key`, the handler
succeeds with the key `music/{ownerId}/{timestamp}-{randomSuffix}-{sanitizedFileName}`
where sanitization replaces every character outside `[A-Za-z0-9._-]` by
`'_'`; the key starts with `music/{ownerId}/`, and for a fileName that is
already storage-safe it ends with the original fileName. -/
theorem uploadUrl_generated_key_shape (jv : String → Option User) (bucket : String)
    (ts : Nat) (rnd : String) (hdr : Option String) (body : UploadUrlBody) (u : User)
    (hv : verifyToken jv hdr = .ok u) (hid : u.id ≠ 0)
    (hval : validateRequest body = .ok ()) (hk : jsFalsyStr body.s3Key = true) :
    uploadUrlHandler jv bucket ts rnd hdr body =
      .success ⟨bucket, generateS3Key u.id (body.fileName.getD "") ts rnd,
        body.fileType.getD "", toString u.id, body.fileName.getD ""⟩
        (generateS3Key u.id (body.fileName.getD "") ts rnd) PRESIGNED_URL_EXPIRY ∧
    generateS3Key u.id (body.fileName.getD "") ts rnd
      = "music/" ++ toString u.id ++ "/" ++ toString ts ++ "-" ++ rnd ++ "-"
        ++ sanitizeFileName (body.fileName.getD "") ∧
    ("music/" ++ toString u.id ++ "/").data
      <+: (generateS3Key u.id (body.fileName.getD "") ts rnd).data ∧
    ((body.fileName.getD "").data.all isSafeChar = true →
      (body.fileName.getD "").data
        <:+ (generateS3Key u.id (body.fileName.getD "") ts rnd).data) := by
  refine ⟨?_, rfl, ?_, ?_⟩
  · unfold uploadUrlHandler
    rw [hv]; dsimp only
    rw [if_neg hid, hval]; dsimp only
    simp [hk]
  · refine ⟨(toString ts ++ "-" ++ rnd ++ "-" ++ sanitizeFileName (body.fileName.getD "")).data, ?_⟩
    unfold generateS3Key
    simp [str_data_append, List.append_assoc]
  · intro hsafe
    refine ⟨("music/" ++ toString u.id ++ "/" ++ toString ts ++ "-" ++ rnd ++ "-").data, ?_⟩
    unfold generateS3Key
    rw [sanitizeFileName_id _ hsafe]
    simp [str_data_append, List.append_assoc]

/-- C7 witness: the key shape at a concrete request for user 42 and the
storage-safe name `track.mp3`. -/
theorem uploadUrl_generated_key_shape_witness :
    verifyToken jvW (some "Bearer tok") = .ok ⟨42⟩ ∧ (42 : Nat) ≠ 0 ∧
    validateRequest ⟨some "track.mp3", some "audio/mpeg", some 4000000, none⟩ = .ok () ∧
    jsFalsyStr (⟨some "track.mp3", some "audio/mpeg", some 4000000, none⟩ : UploadUrlBody).s3Key = true ∧
    (uploadUrlHandler jvW "disco-music-bucket" 1000 "abc" (some "Bearer tok")
        ⟨some "track.mp3", some "audio/mpeg", some 4000000, none⟩ =
      .success ⟨"disco-music-bucket", generateS3Key 42 "track.mp3" 1000 "abc",
        "audio/mpeg", "42", "track.mp3"⟩ (generateS3Key 42 "track.mp3" 1000 "abc")
        PRESIGNED_URL_EXPIRY ∧
      generateS3Key 42 "track.mp3" 1000 "abc"
        = "music/" ++ toString 42 ++ "/" ++ toString 1000 ++ "-" ++ "abc" ++ "-"
          ++ sanitizeFileName "track.mp3" ∧
      ("music/" ++ toString (42 : Nat) ++ "/").data <+: (generateS3Key 42 "track.mp3" 1000 "abc").data ∧
      (("track.mp3" : String).data.all isSafeChar = true →
        ("track.mp3" : String).data <:+ (generateS3Key 42 "track.mp3" 1000 "abc").data)) :=
  ⟨by decide, by decide, by rfl, by decide,
    uploadUrl_generated_key_shape jvW "disco-music-bucket" 1000 "abc" (some "Bearer tok")
      ⟨some "track.mp3", some "audio/mpeg", some 4000000, none⟩ ⟨42⟩
      (by decide) (by decide) (by rfl) (by decide)⟩

/-- Inversion of a successful `confirmHandler` run: a success means the
token verified to a user with truthy id, the body carried a truthy key,
storage held an object under it, and the returned record is exactly the
one assembled by the handler from the token identity, the storage
metadata and the recomputed URL, appended to the store. -/
theorem confirm_success_inv (jv : String → Option User) (bucket region : String)
    (storage : String → Option S3Object) (ts : Nat) (rnd now : String)
    (hdr : Option String) (body : ConfirmBody) (store : List MusicRecord)
    (r : MusicRecord)
    (h : (confirmHandler jv bucket region storage ts rnd now hdr body store).1 = .success r) :
    ∃ u k obj, verifyToken jv hdr = .ok u ∧ u.id ≠ 0 ∧ body.key = some k ∧ k ≠ "" ∧
      storage k = some obj ∧
      confirmHandler jv bucket region storage ts rnd now hdr body store
        = (.success r, store ++ [r]) ∧
      r = ⟨"music_" ++ toString ts ++ "_" ++ rnd, u.id,
        (extractMetadata (if !jsFalsyStr body.fileName then body.fileName.getD ""
            else lastSegment k) obj.originalFileName).title,
        (extractMetadata (if !jsFalsyStr body.fileName then body.fileName.getD ""
            else lastSegment k) obj.originalFileName).artist,
        (extractMetadata (if !jsFalsyStr body.fileName then body.fileName.getD ""
            else lastSegment k) obj.originalFileName).originalFileName,
        k, bucket, obj.size, obj.contentType, publicUrlFor bucket region k, now, "active"⟩ := by
  cases hv : verifyToken jv hdr with
  | err m =>
    exfalso
    unfold confirmHandler at h; rw [hv] at h; simp at h
  | ok u =>
    by_cases h0 : u.id = 0
    · exfalso
      unfold confirmHandler at h; rw [hv] at h; dsimp only at h
      rw [if_pos h0] at h; simp at h
    · cases hfk : jsFalsyStr body.key with
      | true =>
        exfalso
        unfold confirmHandler at h; rw [hv] at h; dsimp only at h
        rw [if_neg h0] at h
        simp [hfk] at h
      | false =>
        obtain ⟨k, hk, hkne⟩ := (jsFalsyStr_false_iff body.key).mp hfk
        have hgetD : body.key.getD "" = k := by rw [hk]; rfl
        cases hst : storage k with
        | none =>
          exfalso
          unfold confirmHandler at h; rw [hv] at h; dsimp only at h
          rw [if_neg h0] at h
          simp only [hfk, Bool.false_eq_true, if_false] at h
          rw [hgetD, hst] at h
          simp at h
        | some obj =>
          have hrun : confirmHandler jv bucket region storage ts rnd now hdr body store
              = (.success ⟨"music_" ++ toString ts ++ "_" ++ rnd, u.id,
                  (extractMetadata (if !jsFalsyStr body.fileName then body.fileName.getD ""
                      else lastSegment k) obj.originalFileName).title,
                  (extractMetadata (if !jsFalsyStr body.fileName then body.fileName.getD ""
                      else lastSegment k) obj.originalFileName).artist,
                  (extractMetadata (if !jsFalsyStr body.fileName then body.fileName.getD ""
                      else lastSegment k) obj.originalFileName).originalFileName,
                  k, bucket, obj.size, obj.contentType, publicUrlFor bucket region k,
                  now, "active"⟩,
                store ++ [⟨"music_" ++ toString ts ++ "_" ++ rnd, u.id,
                  (extractMetadata (if !jsFalsyStr body.fileName then body.fileName.getD ""
                      else lastSegment k) obj.originalFileName).title,
                  (extractMetadata (if !jsFalsyStr body.fileName then body.fileName.getD ""
                      else lastSegment k) obj.originalFileName).artist,
                  (extractMetadata (if !jsFalsyStr body.fileName then body.fileName.getD ""
                      else lastSegment k) obj.originalFileName).originalFileName,
                  k, bucket, obj.size, obj.contentType, publicUrlFor bucket region k,
                  now, "active"⟩]) := by
            unfold confirmHandler
            rw [hv]; dsimp only
            rw [if_neg h0]
            simp only [hfk, Bool.false_eq_true, if_false]
            rw [hgetD, hst]
            rfl
          rw [hrun] at h
          dsimp only at h
          injection h with hrec
          refine ⟨u, k, obj, rfl, h0, hk, hkne, hst, ?_, hrec.symm⟩
          rw [hrun, hrec]

/-! ## C2 — explicit s3Key is accepted verbatim -/

/-- C2: evaluating the upload-url handler for the verified user 42 with
an explicit `s3Key` inside user 99's namespace: the handler issues a 200
grant for that key verbatim — no rejection, no namespace scoping — and
the granted key does not lie inside the caller's `music/42/` namespace. -/
theorem uploadUrl_explicit_key_accepted_verbatim :
    uploadUrlHandler jvW "disco-music-bucket" 1000 "r7" (some "Bearer tok")
      ⟨some "evil.mp3", some "audio/mpeg", some 1000, some "music/99/evil.mp3"⟩
    = .success ⟨"disco-music-bucket", "music/99/evil.mp3", "audio/mpeg", "42", "evil.mp3"⟩
        "music/99/evil.mp3" 900 ∧
    ("music/42/" : String).data.isPrefixOf ("music/99/evil.mp3" : String).data = false := by
  decide

/-! ## C1 — confirming a nonexistent key -/

/-- C1 counterexample: a confirmation for a key with no object in
storage fails with HTTP status 400 (error `'File not found in S3'`,
which the status mapping sends to the `'required'/'not found'` 400
bucket), not 404 as the claim states; the metadata store is unchanged. -/
theorem confirm_missing_object_returns_400_not_404 :
    confirmHandler jvW "disco-music-bucket" "us-east-1" storageNone 5 "r" "now"
      (some "Bearer tok") ⟨some "music/42/ghost.mp3", none, none, none, none⟩ []
      = (.failure 400 "File not found in S3", []) ∧ (400 : Nat) ≠ 404 := by
  decide

/-- C1 (amended): for every confirmation with a verified credential and
a truthy key for which storage holds no object, the handler fails with
the error `'File not found in S3'` at HTTP status 400 (not 404), and the
metadata store is returned unchanged — no `UploadRecord` is persisted. -/
theorem confirm_missing_object_fails_400 (jv : String → Option User)
    (bucket region : String) (storage : String → Option S3Object) (ts : Nat)
    (rnd now : String) (hdr : Option String) (body : ConfirmBody)
    (store : List MusicRecord) (u : User)
    (hv : verifyToken jv hdr = .ok u) (hid : u.id ≠ 0)
    (hk : jsFalsyStr body.key = false)
    (hst : storage (body.key.getD "") = none) :
    confirmHandler jv bucket region storage ts rnd now hdr body store
      = (.failure 400 "File not found in S3", store) := by
  unfold confirmHandler
  rw [hv]; dsimp only
  rw [if_neg hid]
  simp only [hk, Bool.false_eq_true, if_false]
  rw [hst]
  rw [show confirmStatus "File not found in S3" = 400 from by decide]

/-- C1 witness: the amended statement applied at a concrete empty
storage and a concrete request for user 42. -/
theorem confirm_missing_object_fails_400_witness :
    verifyToken jvW (some "Bearer tok") = .ok ⟨42⟩ ∧ (42 : Nat) ≠ 0 ∧
    jsFalsyStr (⟨some "music/42/ghost.mp3", none, none, none, none⟩ : ConfirmBody).key = false ∧
    storageNone ((⟨some "music/42/ghost.mp3", none, none, none, none⟩ : ConfirmBody).key.getD "") = none ∧
    confirmHandler jvW "disco-music-bucket" "us-east-1" storageNone 5 "r" "now"
      (some "Bearer tok") ⟨some "music/42/ghost.mp3", none, none, none, none⟩ []
      = (.failure 400 "File not found in S3", []) :=
  ⟨by decide, by decide, by decide, by rfl,
    confirm_missing_object_fails_400 jvW "disco-music-bucket" "us-east-1" storageNone 5 "r" "now"
      (some "Bearer tok") ⟨some "music/42/ghost.mp3", none, none, none, none⟩ [] ⟨42⟩
      (by decide) (by decide) (by decide) (by rfl)⟩

/-! ## C3 — ownerId comes from the token -/

/-- C3: two confirmations identical in the four fields the handler
destructures (`key`, `fileName`, `fileSize`, `fileType`) but differing
in a body-supplied owner field produce identical outcomes, and every
persisted record's `userId` equals the id of the verified token. -/
theorem confirm_ownerId_from_token (jv : String → Option User) (bucket region : String)
    (storage : String → Option S3Object) (ts : Nat) (rnd now : String)
    (hdr : Option String) (b1 b2 : ConfirmBody) (store : List MusicRecord)
    (hk : b1.key = b2.key) (hf : b1.fileName = b2.fileName)
    (hs : b1.fileSize = b2.fileSize) (ht : b1.fileType = b2.fileType) :
    confirmHandler jv bucket region storage ts rnd now hdr b1 store
      = confirmHandler jv bucket region storage ts rnd now hdr b2 store ∧
    ∀ u r, verifyToken jv hdr = .ok u →
      (confirmHandler jv bucket region storage ts rnd now hdr b1 store).1 = .success r →
      r.userId = u.id ∧
      (confirmHandler jv bucket region storage ts rnd now hdr b1 store).2 = store ++ [r] := by
  obtain ⟨k1, f1, s1, t1, o1⟩ := b1
  obtain ⟨k2, f2, s2, t2, o2⟩ := b2
  dsimp only at hk hf hs ht
  subst hk hf hs ht
  refine ⟨rfl, ?_⟩
  intro u r hv h
  obtain ⟨u', k, obj, hv', _, _, _, _, hrun, hrec⟩ :=
    confirm_success_inv _ _ _ _ _ _ _ _ _ _ _ h
  have hu : u' = u := by
    rw [hv] at hv'; injection hv' with h'; exact h'.symm
  subst hu
  constructor
  · rw [hrec]
  · rw [hrun]

/-- C3 witness: conflicting owner fields (99 vs 1) do not change the
outcome, and the persisted record's `userId` is 42 from the token. -/
theorem confirm_ownerId_from_token_witness :
    cb1.key = cb3.key ∧ cb1.fileName = cb3.fileName ∧
    cb1.fileSize = cb3.fileSize ∧ cb1.fileType = cb3.fileType ∧
    verifyToken jvW (some "Bearer tok") = .ok ⟨42⟩ ∧
    (confirmHandler jvW "disco-music-bucket" "us-east-1" storageOne 5 "r" "now"
        (some "Bearer tok") cb1 []).1 = .success recW ∧
    (confirmHandler jvW "disco-music-bucket" "us-east-1" storageOne 5 "r" "now"
        (some "Bearer tok") cb1 []
      = confirmHandler jvW "disco-music-bucket" "us-east-1" storageOne 5 "r" "now"
        (some "Bearer tok") cb3 [] ∧
     recW.userId = User.id ⟨42⟩ ∧
     (confirmHandler jvW "disco-music-bucket" "us-east-1" storageOne 5 "r" "now"
        (some "Bearer tok") cb1 []).2 = [] ++ [recW]) :=
  ⟨rfl, rfl, rfl, rfl, by decide, by rfl,
    (confirm_ownerId_from_token jvW "disco-music-bucket" "us-east-1" storageOne 5 "r" "now"
        (some "Bearer tok") cb1 cb3 [] rfl rfl rfl rfl).1,
    ((confirm_ownerId_from_token jvW "disco-music-bucket" "us-east-1" storageOne 5 "r" "now"
        (some "Bearer tok") cb1 cb3 [] rfl rfl rfl rfl).2 ⟨42⟩ recW (by decide) (by rfl)).1,
    ((confirm_ownerId_from_token jvW "disco-music-bucket" "us-east-1" storageOne 5 "r" "now"
        (some "Bearer tok") cb1 cb3 [] rfl rfl rfl rfl).2 ⟨42⟩ recW (by decide) (by rfl)).2⟩

/-! ## C4 — URL recomputed, size and type from storage -/

/-- C4: confirmations agreeing on `key` and `fileName` give identical
outcomes whatever the client claims in `fileSize`/`fileType`, and every
persisted record carries the URL recomputed from bucket, region and key
and the size and content type reported by the storage HEAD query. -/
theorem confirm_url_size_type_from_storage (jv : String → Option User)
    (bucket region : String) (storage : String → Option S3Object) (ts : Nat)
    (rnd now : String) (hdr : Option String) (b1 b2 : ConfirmBody)
    (store : List MusicRecord)
    (hk : b1.key = b2.key) (hf : b1.fileName = b2.fileName) :
    confirmHandler jv bucket region storage ts rnd now hdr b1 store
      = confirmHandler jv bucket region storage ts rnd now hdr b2 store ∧
    ∀ r, (confirmHandler jv bucket region storage ts rnd now hdr b1 store).1 = .success r →
      r.publicUrl = publicUrlFor bucket region r.s3Key ∧
      ∃ obj, storage r.s3Key = some obj ∧ r.fileSize = obj.size ∧
        r.contentType = obj.contentType := by
  constructor
  · obtain ⟨k1, f1, s1, t1, o1⟩ := b1
    obtain ⟨k2, f2, s2, t2, o2⟩ := b2
    dsimp only at hk hf
    subst hk hf
    rfl
  · intro r h
    obtain ⟨u, k, obj, _, _, _, _, hst, _, hrec⟩ :=
      confirm_success_inv _ _ _ _ _ _ _ _ _ _ _ h
    subst hrec
    exact ⟨rfl, obj, hst, rfl, rfl⟩

/-- C4 witness: against `storageOne` the record for `cb1` carries the
recomputed URL and storage's size 123 and type `audio/mpeg`, not the
client-claimed 9 bytes of `audio/wav`; `cb2`'s conflicting claims give
the identical outcome. -/
theorem confirm_url_size_type_from_storage_witness :
    cb1.key = cb2.key ∧ cb1.fileName = cb2.fileName ∧
    (confirmHandler jvW "disco-music-bucket" "us-east-1" storageOne 5 "r" "now"
        (some "Bearer tok") cb1 []).1 = .success recW ∧
    (confirmHandler jvW "disco-music-bucket" "us-east-1" storageOne 5 "r" "now"
        (some "Bearer tok") cb1 []
      = confirmHandler jvW "disco-music-bucket" "us-east-1" storageOne 5 "r" "now"
        (some "Bearer tok") cb2 [] ∧
     (recW.publicUrl = publicUrlFor "disco-music-bucket" "us-east-1" recW.s3Key ∧
      ∃ obj, storageOne recW.s3Key = some obj ∧ recW.fileSize = obj.size ∧
        recW.contentType = obj.contentType)) :=
  ⟨rfl, rfl, by rfl,
    (confirm_url_size_type_from_storage jvW "disco-music-bucket" "us-east-1" storageOne 5 "r"
        "now" (some "Bearer tok") cb1 cb2 [] rfl rfl).1,
    (confirm_url_size_type_from_storage jvW "disco-music-bucket" "us-east-1" storageOne 5 "r"
        "now" (some "Bearer tok") cb1 cb2 [] rfl rfl).2 recW (by rfl)⟩

/-! ## C9 — title and artist derivation -/

/-- C9: a successful confirmation derives the descriptive metadata from
the client fileName when truthy, else from the last path segment of the
key: after stripping the final extension, splitting on `' - '` into
exactly two parts makes the first the artist and the second the title
(both trimmed); otherwise the whole stripped name is the title and the
artist is `'Unknown Artist'`. -/
theorem confirm_title_artist_rule (jv : String → Option User) (bucket region : String)
    (storage : String → Option S3Object) (ts : Nat) (rnd now : String)
    (hdr : Option String) (body : ConfirmBody) (store : List MusicRecord)
    (r : MusicRecord)
    (h : (confirmHandler jv bucket region storage ts rnd now hdr body store).1 = .success r) :
    ∃ k, body.key = some k ∧
      ((jsSplit (stripExt (if !jsFalsyStr body.fileName then body.fileName.getD ""
          else lastSegment k)) " - ").length = 2 →
        r.artist = jsTrim ((jsSplit (stripExt (if !jsFalsyStr body.fileName
            then body.fileName.getD "" else lastSegment k)) " - ").getD 0 "") ∧
        r.title = jsTrim ((jsSplit (stripExt (if !jsFalsyStr body.fileName
            then body.fileName.getD "" else lastSegment k)) " - ").getD 1 "")) ∧
      ((jsSplit (stripExt (if !jsFalsyStr body.fileName then body.fileName.getD ""
          else lastSegment k)) " - ").length ≠ 2 →
        r.artist = "Unknown Artist" ∧
        r.title = stripExt (if !jsFalsyStr body.fileName then body.fileName.getD ""
          else lastSegment k)) := by
  obtain ⟨u, k, obj, _, _, hk, _, _, _, hrec⟩ :=
    confirm_success_inv _ _ _ _ _ _ _ _ _ _ _ h
  subst hrec
  refine ⟨k, hk, ?_, ?_⟩
  · intro h2
    refine ⟨?_, ?_⟩ <;>
      · dsimp only
        simp only [extractMetadata]
        rw [if_pos h2]
  · intro h2
    refine ⟨?_, ?_⟩ <;>
      · dsimp only
        simp only [extractMetadata]
        rw [if_neg h2]

/-- C9 witness: for the fileName `"Jane - Song.mp3"` the split has two
parts, so the record's artist is `"Jane"` and title `"Song"`. -/
theorem confirm_title_artist_rule_witness :
    (confirmHandler jvW "disco-music-bucket" "us-east-1" storageOne 5 "r" "now"
        (some "Bearer tok") cb1 []).1 = .success recW ∧
    ∃ k, cb1.key = some k ∧
      ((jsSplit (stripExt (if !jsFalsyStr cb1.fileName then cb1.fileName.getD ""
          else lastSegment k)) " - ").length = 2 →
        recW.artist = jsTrim ((jsSplit (stripExt (if !jsFalsyStr cb1.fileName
            then cb1.fileName.getD "" else lastSegment k)) " - ").getD 0 "") ∧
        recW.title = jsTrim ((jsSplit (stripExt (if !jsFalsyStr cb1.fileName
            then cb1.fileName.getD "" else lastSegment k)) " - ").getD 1 "")) ∧
      ((jsSplit (stripExt (if !jsFalsyStr cb1.fileName then cb1.fileName.getD ""
          else lastSegment k)) " - ").length ≠ 2 →
        recW.artist = "Unknown Artist" ∧
        recW.title = stripExt (if !jsFalsyStr cb1.fileName then cb1.fileName.getD ""
          else lastSegment k)) :=
  ⟨by rfl,
    confirm_title_artist_rule jvW "disco-music-bucket" "us-east-1" storageOne 5 "r" "now"
      (some "Bearer tok") cb1 [] recW (by rfl)⟩

/-! ## C8 — request validation and status mapping -/

/-- The unsupported-type message always contains `"Unsupported"`. -/
theorem unsupported_includes (x : String) :
    strIncludes ("Unsupported file type: " ++ x) "Unsupported" = true := by
  unfold strIncludes
  apply containsSub_of_isPrefixOf
  rw [str_data_append]
  rw [show ("Unsupported file type: " : String).data
      = ("Unsupported" : String).data ++ (" file type: " : String).data from rfl]
  rw [List.append_assoc]
  exact isPrefixOf_append_self _ _

/-- The unsupported-type message is never the literal `"Unauthorized"`. -/
theorem unsupported_ne_unauthorized (x : String) :
    (("Unsupported file type: " ++ x) == ("Unauthorized" : String)) = false := by
  rw [beq_eq_false_iff_ne]
  intro h
  have hd := congrArg String.data h
  rw [str_data_append] at hd
  have hl := congrArg List.length hd
  rw [List.length_append] at hl
  rw [show ("Unsupported file type: " : String).data.length = 23 from rfl] at hl
  rw [show ("Unauthorized" : String).data.length = 12 from rfl] at hl
  omega

/-- When the rejected fileType does not smuggle the substring `"token"`
into the message, the unsupported-type error maps to status 400. -/
theorem uploadUrlStatus_unsupported (x : String)
    (h : strIncludes ("Unsupported file type: " ++ x) "token" = false) :
    uploadUrlStatus ("Unsupported file type: " ++ x) = 400 := by
  unfold uploadUrlStatus
  rw [h, unsupported_ne_unauthorized x, unsupported_includes x]
  simp

/-- C8 counterexample: the claim promises 400 for any disallowed
fileType, but the catch-block checks `includes('token')` first: a
request with the disallowed fileType `"token"` is rejected with status
401, not 400. -/
theorem uploadUrl_unsupported_type_gets_401 :
    uploadUrlHandler jvW "disco-music-bucket" 1 "r" (some "Bearer tok")
      ⟨some "x.bin", some "token", none, none⟩
      = .failure 401 "Unsupported file type: token" ∧ (401 : Nat) ≠ 400 := by
  decide

/-- C8 (amended): with a verified credential, the handler fails with 400
`'fileName is required'` when fileName is falsy, 400 `'fileType is
required'` when fileType is falsy, 400 on a truthy fileSize above the
100 MiB ceiling (the check is skipped when fileSize is absent or 0), and
400 on a fileType outside the allow-list provided the resulting message
does not contain the substring `"token"` (otherwise the status mapping
misclassifies it as 401); when every check passes a grant is issued. -/
theorem uploadUrl_validation_rules (jv : String → Option User) (bucket : String)
    (ts : Nat) (rnd : String) (hdr : Option String) (u : User)
    (hv : verifyToken jv hdr = .ok u) (hid : u.id ≠ 0) (body : UploadUrlBody) :
    (jsFalsyStr body.fileName = true →
      uploadUrlHandler jv bucket ts rnd hdr body = .failure 400 "fileName is required") ∧
    (jsFalsyStr body.fileName = false → jsFalsyStr body.fileType = true →
      uploadUrlHandler jv bucket ts rnd hdr body = .failure 400 "fileType is required") ∧
    (jsFalsyStr body.fileName = false → jsFalsyStr body.fileType = false →
      ∀ n, body.fileSize = some n → MAX_FILE_SIZE < n →
      uploadUrlHandler jv bucket ts rnd hdr body
        = .failure 400 "File size exceeds maximum allowed (100MB)") ∧
    (jsFalsyStr body.fileName = false → jsFalsyStr body.fileType = false →
      (jsFalsyNat body.fileSize = true ∨ body.fileSize.getD 0 ≤ MAX_FILE_SIZE) →
      ALLOWED_TYPES.contains (body.fileType.getD "") = false →
      strIncludes ("Unsupported file type: " ++ body.fileType.getD "") "token" = false →
      uploadUrlHandler jv bucket ts rnd hdr body
        = .failure 400 ("Unsupported file type: " ++ body.fileType.getD "")) ∧
    (jsFalsyStr body.fileName = false → jsFalsyStr body.fileType = false →
      (jsFalsyNat body.fileSize = true ∨ body.fileSize.getD 0 ≤ MAX_FILE_SIZE) →
      ALLOWED_TYPES.contains (body.fileType.getD "") = true →
      ∃ cmd k, uploadUrlHandler jv bucket ts rnd hdr body
        = .success cmd k PRESIGNED_URL_EXPIRY) := by
  have hsize_neg : ∀ hs : jsFalsyNat body.fileSize = true ∨ body.fileSize.getD 0 ≤ MAX_FILE_SIZE,
      ¬((!jsFalsyNat body.fileSize) = true ∧ body.fileSize.getD 0 > MAX_FILE_SIZE) := by
    rintro (hs | hs) ⟨h1, h2⟩
    · rw [hs] at h1; simp at h1
    · omega
  refine ⟨?_, ?_, ?_, ?_, ?_⟩
  · intro h1
    unfold uploadUrlHandler
    rw [hv]; dsimp only
    rw [if_neg hid]
    have hval : validateRequest body = .error "fileName is required" := by
      unfold validateRequest; rw [if_pos h1]
    rw [hval]; dsimp only
    rw [show uploadUrlStatus "fileName is required" = 400 from by decide]
  · intro h1 h2
    unfold uploadUrlHandler
    rw [hv]; dsimp only
    rw [if_neg hid]
    have hval : validateRequest body = .error "fileType is required" := by
      unfold validateRequest
      rw [if_neg (by simp [h1]), if_pos h2]
    rw [hval]; dsimp only
    rw [show uploadUrlStatus "fileType is required" = 400 from by decide]
  · intro h1 h2 n hn hgt
    unfold uploadUrlHandler
    rw [hv]; dsimp only
    rw [if_neg hid]
    have hval : validateRequest body = .error "File size exceeds maximum allowed (100MB)" := by
      unfold validateRequest
      rw [if_neg (by simp [h1]), if_neg (by simp [h2])]
      rw [if_pos ?_]
      refine ⟨?_, ?_⟩
      · rw [hn]; simp [jsFalsyNat]; omega
      · rw [hn]; simpa using hgt
    rw [hval]; dsimp only
    rw [show uploadUrlStatus "File size exceeds maximum allowed (100MB)" = 400 from by decide]
  · intro h1 h2 hs hc htok
    unfold uploadUrlHandler
    rw [hv]; dsimp only
    rw [if_neg hid]
    have hval : validateRequest body
        = .error ("Unsupported file type: " ++ body.fileType.getD "") := by
      unfold validateRequest
      rw [if_neg (by simp [h1]), if_neg (by simp [h2]), if_neg (hsize_neg hs)]
      rw [if_pos (by simp; simpa using hc)]
    rw [hval]; dsimp only
    rw [uploadUrlStatus_unsupported _ htok]
  · intro h1 h2 hs hc
    have hval : validateRequest body = .ok () := by
      unfold validateRequest
      rw [if_neg (by simp [h1]), if_neg (by simp [h2]), if_neg (hsize_neg hs)]
      rw [if_neg (by simp; simpa using hc)]
    refine ⟨⟨bucket,
      (if !jsFalsyStr body.s3Key then body.s3Key.getD ""
        else generateS3Key u.id (body.fileName.getD "") ts rnd),
      body.fileType.getD "", toString u.id, body.fileName.getD ""⟩,
      (if !jsFalsyStr body.s3Key then body.s3Key.getD ""
        else generateS3Key u.id (body.fileName.getD "") ts rnd), ?_⟩
    unfold uploadUrlHandler
    rw [hv]; dsimp only
    rw [if_neg hid, hval]

/-- C8 witness: the amended rules at a disallowed but token-free
fileType (`"video/avi"`) give the 400 unsupported-type failure. -/
theorem uploadUrl_validation_rules_witness :
    verifyToken jvW (some "Bearer tok") = .ok ⟨42⟩ ∧ (42 : Nat) ≠ 0 ∧
    jsFalsyStr (some "x.bin") = false ∧ jsFalsyStr (some "video/avi") = false ∧
    jsFalsyNat (none : Option Nat) = true ∧
    ALLOWED_TYPES.contains "video/avi" = false ∧
    strIncludes ("Unsupported file type: " ++ "video/avi") "token" = false ∧
    uploadUrlHandler jvW "disco-music-bucket" 1 "r" (some "Bearer tok")
      ⟨some "x.bin", some "video/avi", none, none⟩
      = .failure 400 ("Unsupported file type: " ++ "video/avi") :=
  ⟨by decide, by decide, by decide, by decide, by decide, by decide, by decide,
    (uploadUrl_validation_rules jvW "disco-music-bucket" 1 "r" (some "Bearer tok") ⟨42⟩
        (by decide) (by decide) ⟨some "x.bin", some "video/avi", none, none⟩).2.2.2.1
      (by decide) (by decide) (Or.inl (by decide)) (by decide) (by decide)⟩

/-! ## C6 — protocol steps per object -/

/-- C6 counterexample: a fully successful album upload (cover, one
track, manifest) emits exactly a grant request and a PUT per object and
never calls the upload-complete endpoint — the claimed third step does
not happen for any album object. -/
theorem uploadAlbum_no_confirm_counterexample :
    uploadAlbum (fun _ => UpOutcome.ok) "My Album" ⟨"cover.jpg"⟩
        [⟨"a.mp3", 5, some "audio/mpeg"⟩] 10
      = ([.grantRequest "cover.jpg" "image/jpeg" 0 (some "music/my-album/cover.jpg"),
          .putObject "image/jpeg",
          .grantRequest "a.mp3" "audio/mpeg" 5 (some "music/my-album/01. a.mp3"),
          .putObject "audio/mpeg",
          .grantRequest "metadata.json" "application/json" 10 (some "music/my-album/metadata.json"),
          .putObject "application/json"], true) ∧
    ((uploadAlbum (fun _ => UpOutcome.ok) "My Album" ⟨"cover.jpg"⟩
        [⟨"a.mp3", 5, some "audio/mpeg"⟩] 10).1.all (fun s => !isConfirmStep s)) = true := by
  decide

/-- C6 (amended): during a structured album upload the client performs,
per object and sequentially, only the first two protocol steps — grant
request (with explicit `s3Key`) then PUT — and never calls the
upload-complete endpoint, so no per-object record is persisted; the full
three-step protocol (grant, PUT, confirm) is performed only by the
single-file upload flow `uploadToS3`. -/
theorem album_two_step_single_three_step :
    (∀ (env : Nat → UpOutcome) (i : Nat) (its : List UploadItem),
      ((runSeq env i its).1.all (fun s => !isConfirmStep s)) = true) ∧
    (∀ it : UploadItem, fileSteps .ok it
      = ([.grantRequest it.fileName it.contentType it.fileSize (some it.key),
          .putObject it.contentType], true)) ∧
    (∀ (e : SingleEnv) (fn ft : String) (fs : Nat), e.grantOk = true → e.putOk = true →
      (uploadToS3Steps e fn ft fs).1
        = [.grantRequest fn ft fs none, .putObject ft, .confirmCall e.grantKey fn]) := by
  refine ⟨?_, ?_, ?_⟩
  · intro env i its
    induction its generalizing i with
    | nil => rfl
    | cons it rest ih =>
      cases h : env i with
      | grantFail => simp [runSeq, fileSteps, h, isConfirmStep]
      | putFail => simp [runSeq, fileSteps, h, isConfirmStep]
      | ok =>
        simp [runSeq, fileSteps, h, isConfirmStep]
        simpa [isConfirmStep] using ih (i + 1)
  · intro it; rfl
  · intro e fn ft fs hg hp
    unfold uploadToS3Steps
    rw [hg, hp]
    cases hc : e.confirmOk <;> simp [hc]

/-- C6 witness: the three-step single-file flow at a concrete successful
environment. -/
theorem album_two_step_single_three_step_witness :
    (⟨true, "music/42/k.mp3", true, true⟩ : SingleEnv).grantOk = true ∧
    (⟨true, "music/42/k.mp3", true, true⟩ : SingleEnv).putOk = true ∧
    (uploadToS3Steps ⟨true, "music/42/k.mp3", true, true⟩ "a.mp3" "audio/mpeg" 5).1
      = [.grantRequest "a.mp3" "audio/mpeg" 5 none, .putObject "audio/mpeg",
         .confirmCall "music/42/k.mp3" "a.mp3"] :=
  ⟨rfl, rfl,
    album_two_step_single_three_step.2.2 ⟨true, "music/42/k.mp3", true, true⟩
      "a.mp3" "audio/mpeg" 5 rfl rfl⟩

/-! ## C5 — manifest written last, fail-fast -/

/-- Cancelling a common left factor of a string equation. -/
theorem append_cancel_str (folder a b : String) (h : folder ++ a = folder ++ b) : a = b := by
  apply str_eq_of_data
  have hd := congrArg String.data h
  rw [str_data_append, str_data_append] at hd
  exact List.append_cancel_left hd

/-- The manifest key differs from the cover key under the same folder. -/
theorem manifest_ne_cover (folder ext : String) :
    folder ++ "/metadata.json" ≠ folder ++ "/cover." ++ ext := by
  intro h
  have hd := congrArg String.data h
  simp only [str_data_append, List.append_assoc] at hd
  have hd2 := List.append_cancel_left hd
  have hd3 : ('/' :: 'm' :: ("etadata.json" : String).data)
      = '/' :: 'c' :: (("over." : String).data ++ ext.data) := hd2
  injection hd3 with e1 hd4
  injection hd4 with e2 _
  exact absurd e2 (by decide)

/-- The manifest key differs from every track key under the same folder:
track keys contain the space of `". "`, the manifest suffix has none. -/
theorem manifest_ne_track (folder p name : String) :
    folder ++ "/metadata.json" ≠ folder ++ "/" ++ p ++ ". " ++ name := by
  intro h
  have hd := congrArg String.data h
  simp only [str_data_append, List.append_assoc] at hd
  have hd2 := List.append_cancel_left hd
  have hmem : (' ' : Char) ∈ (['/'] ++ (p.data ++ (['.', ' '] ++ name.data))) := by
    apply List.mem_append.mpr
    right
    apply List.mem_append.mpr
    right
    apply List.mem_append.mpr
    left
    decide
  rw [← hd2] at hmem
  exact absurd hmem (by decide)

/-- No key in the front (cover and tracks) of an album's item list is
the manifest key. -/
theorem albumItems_front_keys (albumName : String) (cover : CoverFile)
    (songs : List SongFile) (msize : Nat) :
    ∀ it ∈ (albumItems albumName cover songs msize).dropLast,
      it.key ≠ albumManifestKey albumName := by
  intro it hit
  have hshape : (albumItems albumName cover songs msize).dropLast
      = (⟨clientFileName (some cover.name)
            (albumFolder albumName ++ "/cover." ++ coverExtOf cover.name), 0,
          albumFolder albumName ++ "/cover." ++ coverExtOf cover.name,
          "image/jpeg"⟩ : UploadItem)
        :: (List.range songs.length).map (fun i =>
            let s := songs.getD i ⟨"", 0, none⟩
            let k := trackKey (albumFolder albumName) i s.name
            (⟨clientFileName (some s.name) k, s.size, k,
              s.mime.getD "audio/mpeg"⟩ : UploadItem)) := by
    show (_ :: (_ ++ [_]) : List UploadItem).dropLast = _
    rw [← List.cons_append, List.dropLast_concat]
  rw [hshape] at hit
  rcases List.mem_cons.mp hit with h | h
  · subst h
    exact Ne.symm (manifest_ne_cover (albumFolder albumName) (coverExtOf cover.name))
  · obtain ⟨i, hi, rfl⟩ := List.mem_map.mp h
    exact Ne.symm (manifest_ne_track (albumFolder albumName)
      (pad2 (toString (i + 1))) ((songs.getD i ⟨"", 0, none⟩).name))

/-- If some pre-final outcome fails, the sequential run reports failure
and never requests a grant for a key that only the final item carries. -/
theorem runSeq_fail_not_attempted (K : String) (its : List UploadItem) :
    ∀ (env : Nat → UpOutcome) (i : Nat),
      (∀ it ∈ its.dropLast, it.key ≠ K) →
      (∃ j, j < its.length - 1 ∧ env (i + j) ≠ .ok) →
      (runSeq env i its).2 = false ∧
      ((runSeq env i its).1.any (isGrantFor K)) = false := by
  induction its with
  | nil =>
    intro env i _ hex
    obtain ⟨j, hj, _⟩ := hex
    simp at hj
  | cons it rest ih =>
    intro env i hks hex
    obtain ⟨j, hj, hne⟩ := hex
    have hlen : j < rest.length := by simpa using hj
    have hrest : rest ≠ [] := by
      intro h; subst h; simp at hlen
    have hkey : it.key ≠ K := by
      apply hks
      cases rest with
      | nil => exact absurd rfl hrest
      | cons a b => exact List.mem_cons_self _ _
    have hdropmem : ∀ x ∈ rest.dropLast, x.key ≠ K := by
      intro x hx
      apply hks
      cases rest with
      | nil => simp at hx
      | cons a b =>
        show x ∈ it :: (a :: b).dropLast
        exact List.mem_cons_of_mem it hx
    cases ho : env i with
    | ok =>
      have hj0 : j ≠ 0 := by
        intro hzero
        subst hzero
        apply hne
        simpa using ho
      obtain ⟨j', rfl⟩ : ∃ j', j = j' + 1 := ⟨j - 1, by omega⟩
      have hex' : ∃ j2, j2 < rest.length - 1 ∧ env ((i + 1) + j2) ≠ .ok := by
        refine ⟨j', by omega, ?_⟩
        rw [show (i + 1) + j' = i + (j' + 1) from by omega]
        exact hne
      have hrec := ih env (i + 1) hdropmem hex'
      constructor
      · simp [runSeq, fileSteps, ho, hrec.1]
      · simp [runSeq, fileSteps, ho, isGrantFor, hkey, hrec.2]
    | grantFail =>
      constructor
      · simp [runSeq, fileSteps, ho]
      · simp [runSeq, fileSteps, ho, isGrantFor, hkey]
    | putFail =>
      constructor
      · simp [runSeq, fileSteps, ho]
      · simp [runSeq, fileSteps, ho, isGrantFor, hkey]

/-- One successful step of the sequential runner. -/
theorem runSeq_cons_ok (env : Nat → UpOutcome) (i : Nat) (it : UploadItem)
    (rest : List UploadItem) (h : env i = .ok) :
    runSeq env i (it :: rest)
      = ((fileSteps .ok it).1 ++ (runSeq env (i + 1) rest).1,
         (runSeq env (i + 1) rest).2) := by
  simp [runSeq, fileSteps, h]

/-- If every pre-final outcome succeeds, the run's trace starts with the
full grant-and-PUT steps of all front items, in input order. -/
theorem runSeq_front_ok (its : List UploadItem) :
    ∀ (env : Nat → UpOutcome) (i : Nat),
      (∀ j, j < its.length - 1 → env (i + j) = .ok) → its ≠ [] →
      ∃ t, (runSeq env i its).1 = fullSteps its.dropLast ++ t := by
  induction its with
  | nil => intro env i _ h; exact absurd rfl h
  | cons it rest ih =>
    intro env i hok _
    cases rest with
    | nil =>
      exact ⟨(runSeq env i [it]).1, by simp [List.dropLast, fullSteps]⟩
    | cons r0 rest' =>
      have h0 : env i = .ok := by
        have := hok 0 (by simp)
        simpa using this
      have hok' : ∀ j, j < (r0 :: rest').length - 1 → env ((i + 1) + j) = .ok := by
        intro j hjj
        have := hok (j + 1) (by simp at hjj ⊢; omega)
        rw [show i + (j + 1) = (i + 1) + j from by omega] at this
        exact this
      obtain ⟨t, ht⟩ := ih env (i + 1) hok' (by simp)
      refine ⟨t, ?_⟩
      show (runSeq env i (it :: r0 :: rest')).1
        = fullSteps (it :: (r0 :: rest').dropLast) ++ t
      rw [runSeq_cons_ok env i it (r0 :: rest') h0]
      dsimp only
      rw [ht]
      simp [fileSteps, fullSteps]

/-- The full front steps request grants only for front keys. -/
theorem fullSteps_no_grant (K : String) (its : List UploadItem)
    (h : ∀ it ∈ its, it.key ≠ K) : ((fullSteps its).any (isGrantFor K)) = false := by
  induction its with
  | nil => rfl
  | cons it rest ih =>
    have h1 : it.key ≠ K := h it (List.mem_cons_self _ _)
    have h2 := ih (fun x hx => h x (List.mem_cons_of_mem it hx))
    simp [fullSteps, isGrantFor, h1, h2]

/-- C5: in every album upload, the manifest's grant is requested only if
every cover and track upload before it succeeded, and then only after
all their steps, in input order; conversely, if any cover or track
upload fails, the run ends in failure and no grant for the manifest key
is ever requested — the manifest object is never written. -/
theorem uploadAlbum_manifest_last_fail_fast (env : Nat → UpOutcome) (albumName : String)
    (cover : CoverFile) (songs : List SongFile) (msize : Nat) :
    (((uploadAlbum env albumName cover songs msize).1.any
        (isGrantFor (albumManifestKey albumName))) = true →
      (∀ j, j < (albumItems albumName cover songs msize).length - 1 → env j = .ok) ∧
      ∃ t, (uploadAlbum env albumName cover songs msize).1
          = fullSteps (albumItems albumName cover songs msize).dropLast ++ t ∧
        ((fullSteps (albumItems albumName cover songs msize).dropLast).any
          (isGrantFor (albumManifestKey albumName))) = false) ∧
    ((∃ j, j < (albumItems albumName cover songs msize).length - 1 ∧ env j ≠ .ok) →
      (uploadAlbum env albumName cover songs msize).2 = false ∧
      ((uploadAlbum env albumName cover songs msize).1.any
        (isGrantFor (albumManifestKey albumName))) = false) := by
  have hfront := albumItems_front_keys albumName cover songs msize
  constructor
  · intro hatt
    have hall : ∀ j, j < (albumItems albumName cover songs msize).length - 1 → env j = .ok := by
      by_contra hno
      push_neg at hno
      obtain ⟨j, hj, hne⟩ := hno
      have hbad := runSeq_fail_not_attempted (albumManifestKey albumName)
        (albumItems albumName cover songs msize) env 0 hfront
        ⟨j, hj, by simpa using hne⟩
      exact absurd hatt (by simp [uploadAlbum, hbad.2])
    refine ⟨hall, ?_⟩
    obtain ⟨t, ht⟩ := runSeq_front_ok (albumItems albumName cover songs msize) env 0
      (fun j hj => by simpa using hall j hj) (by simp [albumItems])
    exact ⟨t, ht, fullSteps_no_grant _ _ hfront⟩
  · intro hex
    obtain ⟨j, hj, hne⟩ := hex
    exact runSeq_fail_not_attempted (albumManifestKey albumName)
      (albumItems albumName cover songs msize) env 0 hfront ⟨j, hj, by simpa using hne⟩

/-- C5 witness: with the second upload (track 1) failing its PUT, a
concrete two-track album run ends in failure and never requests a grant
for `music/my-album/metadata.json`. -/
theorem uploadAlbum_manifest_last_fail_fast_witness :
    (∃ j, j < (albumItems "My Album" ⟨"cover.jpg"⟩
        [⟨"a.mp3", 5, some "audio/mpeg"⟩, ⟨"b.wav", 6, none⟩] 10).length - 1 ∧
      (fun i => if i = 1 then UpOutcome.putFail else UpOutcome.ok) j ≠ .ok) ∧
    ((uploadAlbum (fun i => if i = 1 then UpOutcome.putFail else UpOutcome.ok) "My Album"
        ⟨"cover.jpg"⟩ [⟨"a.mp3", 5, some "audio/mpeg"⟩, ⟨"b.wav", 6, none⟩] 10).2 = false ∧
      ((uploadAlbum (fun i => if i = 1 then UpOutcome.putFail else UpOutcome.ok) "My Album"
        ⟨"cover.jpg"⟩ [⟨"a.mp3", 5, some "audio/mpeg"⟩, ⟨"b.wav", 6, none⟩] 10).1.any
        (isGrantFor (albumManifestKey "My Album"))) = false) :=
  ⟨⟨1, by decide, by decide⟩,
    (uploadAlbum_manifest_last_fail_fast
      (fun i => if i = 1 then UpOutcome.putFail else UpOutcome.ok) "My Album"
      ⟨"cover.jpg"⟩ [⟨"a.mp3", 5, some "audio/mpeg"⟩, ⟨"b.wav", 6, none⟩] 10).2
      ⟨1, by decide, by decide⟩⟩

end Disco
